import Mathlib

/-!
Verification of the `aws-ecs-deploy-py` Bitbucket pipe (`pipe/main.py`).

The pipe is a sequential orchestration of three remote ECS control-plane
calls — `register_task_definition`, `update_service`, and the
`services_stable` waiter — with error translation.  We embed it shallowly:
the remote control plane, the file system and the JSON parser are modelled
as an oracle (`Env`) supplying the outcome of each external call, and the
pipe's control flow is translated function by function from the source.
Every run produces an `Outcome` (success / terminal `fail` / uncaught
Python exception) together with a trace of observable events: each
`get_variable` read and each remote control-plane call, in program order.
-/

namespace ECSDeploy

/-- A JSON value, as produced by `json.load`.  Objects are association
lists (Python dicts in insertion order). -/
inductive Json where
  | null
  | bool (b : Bool)
  | num (n : Int)
  | str (s : String)
  | arr (elems : List Json)
  | obj (fields : List (String × Json))

/-- The Python exceptions that dictionary subscription can raise:
`KeyError` (key absent from a dict) or `TypeError` (subscripting a
non-dict with a string key). -/
inductive PyErr where
  | keyError (key : String)
  | typeError

/-- Python `d[key]` on a JSON value: a dict looks the key up and raises
`KeyError` when absent; subscripting any non-dict value with a string key
raises `TypeError`. -/
def getItem : Json → String → Except PyErr Json
  | .obj fields, key =>
      match fields.lookup key with
      | some v => .ok v
      | none => .error (.keyError key)
  | _, _ => .error .typeError

/-- `response['taskDefinition']['taskDefinitionArn']` from
`update_task_definition` (main.py line 90). -/
def lookupArn (response : Json) : Except PyErr Json := do
  let td ← getItem response "taskDefinition"
  getItem td "taskDefinitionArn"

/-- Result of `open(task_definition_file)` followed by `json.load`:
`FileNotFoundError`, `json.decoder.JSONDecodeError`, or a parsed value. -/
inductive ReadResult where
  | fileNotFound
  | parseError
  | parsed (doc : Json)

/-- The control plane's answer to `client.register_task_definition`:
a `ClientError`, a `ParamValidationError`, or a response document. -/
inductive RegisterResult where
  | clientError (err : String)
  | paramValidationError (err : String)
  | success (response : Json)

/-- The control plane's answer to `client.update_service`: a `ClientError`
carrying an error code and message, or a response document. -/
inductive UpdateResult where
  | clientError (code : String) (err : String)
  | success (response : Json)

/-- The outcome of `waiter.wait` for the `services_stable` waiter: a
`WaiterError` or eventual stability. -/
inductive WaitResult where
  | waiterError (err : String)
  | stable

/-- The oracle for everything external to the pipe: client construction,
the task-definition file, and the three remote calls.  A run interacts
with one fixed environment. -/
structure Env where
  clientError : Option String
  readDoc : ReadResult
  registerResult : RegisterResult
  updateResult : UpdateResult
  waitResult : WaitResult

/-- The validated pipe variables the code reads through `get_variable`.
`imageName` is `none` when `IMAGE_NAME` is not set (the `except KeyError`
branch in `run`, main.py lines 119-122). -/
structure Config where
  region : String
  taskDefinitionPath : String
  imageName : Option String
  clusterName : String
  serviceName : String
  forceNewDeployment : Bool
  wait : Bool

/-- Observable events of a run, in program order: a `get_variable` read,
or one of the three remote control-plane calls. -/
inductive Event where
  | getVar (name : String)
  | registerTaskDefinition (doc : List (String × Json))
  | updateService (cluster service : String) (taskDefinition : Json)
      (forceNewDeployment : Bool)
  | waitServicesStable (cluster : String) (services : List String)

/-- Remote control-plane calls (everything except a variable read). -/
def Event.isRemote : Event → Bool
  | .getVar _ => false
  | _ => true

def Event.isRegister : Event → Bool
  | .registerTaskDefinition _ => true
  | _ => false

def Event.isUpdateService : Event → Bool
  | .updateService _ _ _ _ => true
  | _ => false

def Event.isWait : Event → Bool
  | .waitServicesStable _ _ => true
  | _ => false

/-- A `get_variable` read of the named variable. -/
def Event.isReadOf (name : String) : Event → Bool
  | .getVar n => n == name
  | _ => false

/-- How a run ends: `self.success(msg)`, a terminal `self.fail(msg)`
(which raises `SystemExit`), or an uncaught Python exception. -/
inductive Outcome where
  | success (msg : String)
  | failure (msg : String)
  | uncaught (err : String)

/-- Message of `get_client`'s failure branch (main.py line 61). -/
def clientFailMsg (err : String) : String :=
  "Failed to create boto3 client.\n" ++ err

/-- Message for `json.decoder.JSONDecodeError` (main.py line 81). -/
def parseFailMsg : String :=
  "Failed to parse the task definition file: invalid JSON provided."

/-- Message for `FileNotFoundError` (main.py line 83). -/
def notFoundMsg (f : String) : String :=
  "Not able to find " ++ (f ++ " in your repository.")

/-- Message for a `ClientError` from `register_task_definition`
(main.py line 92). -/
def registerClientErrMsg (err : String) : String :=
  "Failed to update the stack.\n" ++ err

/-- Message for a `KeyError` while reading the registration response
(main.py line 94). -/
def arnKeyErrMsg (err : String) : String :=
  "Unable to retrieve taskDefinitionArn key.\n" ++ err

/-- Python's `str` of a `KeyError` is the missing key's repr. -/
def keyErrStr (key : String) : String := "'" ++ (key ++ "'")

/-- Message for a `ParamValidationError` (main.py line 96). -/
def paramValidationMsg (err : String) : String :=
  "ECS task definition parameter validation error: \n " ++ err

/-- `_handle_update_service_error` (main.py lines 63-71): chooses the
message passed to `self.fail` from the `ClientError` code. -/
def handleUpdateServiceErrorMsg (code err : String) : String :=
  if code = "ClusterNotFoundException" then
    "ECS cluster not found. Check your CLUSTER_NAME."
  else if code = "ServiceNotFoundException" then
    "ECS service not found. Check your SERVICE_NAME"
  else
    "Failed to update the stack.\n" ++ err

/-- Message for a `WaiterError` (main.py line 141). -/
def waiterErrMsg (err : String) : String :=
  "Error waiting for service to become stable: " ++ err

/-- The `self.success` confirmation with the console URL
(main.py lines 144-145). -/
def successMsg (region cluster service : String) : String :=
  "Successfully updated the " ++ (service ++
    (" service. You can check you service here: \n" ++
      ("https://console.aws.amazon.com/ecs/home?region=" ++ (region ++
        ("#/clusters/" ++ (cluster ++
          ("/services/" ++ (service ++ "/details"))))))))

/-- `get_client` (main.py lines 57-61): reads `AWS_DEFAULT_REGION` and
`AWS_DEFAULT_PROFILE` and constructs the boto3 client; a `ClientError`
is turned into a terminal `fail`.  The source line is malformed Python
(a missing comma between the two keyword arguments); the repository's
own design notes call it a defect to fix, so we model the evident
intent: both variables are read, then the client is constructed. -/
def get_client (env : Env) : Except String Unit × List Event :=
  match env.clientError with
  | some err =>
      (.error (clientFailMsg err),
        [.getVar "AWS_DEFAULT_REGION", .getVar "AWS_DEFAULT_PROFILE"])
  | none =>
      (.ok (),
        [.getVar "AWS_DEFAULT_REGION", .getVar "AWS_DEFAULT_PROFILE"])

/-- `update_task_definition` (main.py lines 73-96).  Builds the client,
reads and parses the document, submits it via `register_task_definition`
(Python's `**task_definition` raises an uncaught `TypeError` first when
the parsed value is not a dict), and extracts the new revision's ARN.
The `image` parameter is accepted and never used, as in the source. -/
def update_task_definition (env : Env) (task_definition_file : String)
    (image : Option String) : Except Outcome Json × List Event :=
  match get_client env with
  | (.error msg, ev1) => (.error (.failure msg), ev1)
  | (.ok _, ev1) =>
    match env.readDoc with
    | .parseError => (.error (.failure parseFailMsg), ev1)
    | .fileNotFound =>
        (.error (.failure (notFoundMsg task_definition_file)), ev1)
    | .parsed task_definition =>
      match task_definition with
      | .obj fields =>
        let ev2 := ev1 ++ [.registerTaskDefinition fields]
        match env.registerResult with
        | .clientError err =>
            (.error (.failure (registerClientErrMsg err)), ev2)
        | .paramValidationError err =>
            (.error (.failure (paramValidationMsg err)), ev2)
        | .success response =>
          match lookupArn response with
          | .ok arn => (.ok arn, ev2)
          | .error (.keyError key) =>
              (.error (.failure (arnKeyErrMsg (keyErrStr key))), ev2)
          | .error .typeError => (.error (.uncaught "TypeError"), ev2)
      | _ => (.error (.uncaught "TypeError"), ev1)

/-- `update_service` (main.py lines 98-113): builds the client, submits
the update referencing the new revision, and translates a `ClientError`
through `_handle_update_service_error`. -/
def update_service (env : Env) (cluster service : String)
    (task_definition : Json) (force_new_deployment : Bool) :
    Except Outcome Json × List Event :=
  match get_client env with
  | (.error msg, ev1) => (.error (.failure msg), ev1)
  | (.ok _, ev1) =>
    let ev2 := ev1 ++
      [.updateService cluster service task_definition force_new_deployment]
    match env.updateResult with
    | .clientError code err =>
        (.error (.failure (handleUpdateServiceErrorMsg code err)), ev2)
    | .success response => (.ok response, ev2)

/-- `run` (main.py lines 115-145): resolve the variables, update the task
definition, update the service, read `WAIT` and optionally block on the
`services_stable` waiter, then emit the success confirmation. -/
def run (cfg : Config) (env : Env) : Outcome × List Event :=
  let ev0 : List Event :=
    [.getVar "AWS_DEFAULT_REGION", .getVar "TASK_DEFINITION",
     .getVar "IMAGE_NAME", .getVar "CLUSTER_NAME", .getVar "SERVICE_NAME",
     .getVar "FORCE_NEW_DEPLOYMENT"]
  let region := cfg.region
  let definition := cfg.taskDefinitionPath
  let image := cfg.imageName
  let cluster_name := cfg.clusterName
  let service_name := cfg.serviceName
  let force_new_deployment := cfg.forceNewDeployment
  match update_task_definition env definition image with
  | (.error o, ev1) => (o, ev0 ++ ev1)
  | (.ok task_definition, ev1) =>
    match update_service env cluster_name service_name task_definition
        force_new_deployment with
    | (.error o, ev2) => (o, ev0 ++ ev1 ++ ev2)
    | (.ok _response, ev2) =>
      let ev3 := ev0 ++ ev1 ++ ev2 ++ [.getVar "WAIT"]
      if cfg.wait then
        match get_client env with
        | (.error msg, ev4) => (.failure msg, ev3 ++ ev4)
        | (.ok _, ev4) =>
          let ev5 := ev3 ++ ev4 ++
            [.waitServicesStable cluster_name [service_name]]
          match env.waitResult with
          | .waiterError e => (.failure (waiterErrMsg e), ev5)
          | .stable =>
              (.success (successMsg region cluster_name service_name), ev5)
      else
        (.success (successMsg region cluster_name service_name), ev3)

/-! ## Concrete inputs used by the witnesses -/

/-- A typical validated configuration. -/
def cfgW : Config :=
  { region := "us-east-1", taskDefinitionPath := "task-definition.json",
    imageName := none, clusterName := "my-cluster",
    serviceName := "my-service", forceNewDeployment := false, wait := false }

/-- An environment where the task-definition file is missing and every
remote call would otherwise succeed. -/
def envMissingFile : Env :=
  { clientError := none, readDoc := .fileNotFound,
    registerResult := .success (.obj []),
    updateResult := .success (.obj []), waitResult := .stable }

/-- An environment where the task-definition file holds invalid JSON. -/
def envBadJson : Env :=
  { clientError := none, readDoc := .parseError,
    registerResult := .success (.obj []),
    updateResult := .success (.obj []), waitResult := .stable }

/-- A well-formed registration response carrying the new revision's ARN. -/
def respW : Json :=
  .obj [("taskDefinition", .obj [("taskDefinitionArn", .str "arn:aws:ecs:1")])]

/-- An environment where the document parses to an object and every
remote call succeeds. -/
def envAllOk : Env :=
  { clientError := none, readDoc := .parsed (.obj [("family", .str "app")]),
    registerResult := .success respW,
    updateResult := .success (.obj []), waitResult := .stable }

/-! ## Theorems -/

/-- C1: with a readable, valid (object) document and a control plane that
accepts every call, the trace contains exactly one register call and
exactly one update call, the register call precedes the update call, and
the update references the ARN returned by registration. -/
theorem c1_register_once_then_update_once (cfg : Config) (env : Env)
    (fields : List (String × Json)) (resp arn r : Json)
    (hc : env.clientError = none)
    (hd : env.readDoc = .parsed (.obj fields))
    (hr : env.registerResult = .success resp)
    (ha : lookupArn resp = .ok arn)
    (hu : env.updateResult = .success r)
    (hw : env.waitResult = .stable) :
    ((run cfg env).2.filter Event.isRegister) =
      [.registerTaskDefinition fields] ∧
    ((run cfg env).2.filter Event.isUpdateService) =
      [.updateService cfg.clusterName cfg.serviceName arn
        cfg.forceNewDeployment] ∧
    ((run cfg env).2.filter Event.isRemote).take 2 =
      [.registerTaskDefinition fields,
       .updateService cfg.clusterName cfg.serviceName arn
         cfg.forceNewDeployment] := by
  cases hW : cfg.wait <;>
    simp [run, update_task_definition, update_service, get_client, hc, hd,
      hr, ha, hu, hw, hW, Event.isRemote, Event.isRegister,
      Event.isUpdateService]

theorem c1_witness :
    envAllOk.clientError = none ∧
    envAllOk.readDoc = .parsed (.obj [("family", .str "app")]) ∧
    envAllOk.registerResult = .success respW ∧
    lookupArn respW = .ok (.str "arn:aws:ecs:1") ∧
    envAllOk.updateResult = .success (.obj []) ∧
    envAllOk.waitResult = .stable ∧
    (((run cfgW envAllOk).2.filter Event.isRegister) =
        [.registerTaskDefinition [("family", .str "app")]] ∧
      ((run cfgW envAllOk).2.filter Event.isUpdateService) =
        [.updateService cfgW.clusterName cfgW.serviceName
          (.str "arn:aws:ecs:1") cfgW.forceNewDeployment] ∧
      ((run cfgW envAllOk).2.filter Event.isRemote).take 2 =
        [.registerTaskDefinition [("family", .str "app")],
         .updateService cfgW.clusterName cfgW.serviceName
           (.str "arn:aws:ecs:1") cfgW.forceNewDeployment]) :=
  ⟨rfl, rfl, rfl, rfl, rfl, rfl,
    c1_register_once_then_update_once cfgW envAllOk
      [("family", .str "app")] respW (.str "arn:aws:ecs:1") (.obj [])
      rfl rfl rfl rfl rfl rfl⟩

/-- C2: when the configured task-definition file does not exist, the run
fails with the "not able to find" diagnostic naming the path, and no
remote control-plane call appears in the trace. -/
theorem c2_missing_file_fails_without_remote_calls (cfg : Config) (env : Env)
    (hc : env.clientError = none) (hd : env.readDoc = .fileNotFound) :
    (run cfg env).1 = .failure (notFoundMsg cfg.taskDefinitionPath) ∧
    ((run cfg env).2.filter Event.isRemote) = [] := by
  simp [run, update_task_definition, get_client, hc, hd, Event.isRemote]

theorem c2_witness :
    envMissingFile.clientError = none ∧
    envMissingFile.readDoc = .fileNotFound ∧
    ((run cfgW envMissingFile).1 =
        .failure (notFoundMsg cfgW.taskDefinitionPath) ∧
      ((run cfgW envMissingFile).2.filter Event.isRemote) = []) :=
  ⟨rfl, rfl, c2_missing_file_fails_without_remote_calls cfgW envMissingFile
    rfl rfl⟩

/-- C3: when the task-definition file exists but is not valid JSON, the
run fails with the parse diagnostic, and no remote control-plane call
appears in the trace. -/
theorem c3_invalid_json_fails_without_remote_calls (cfg : Config) (env : Env)
    (hc : env.clientError = none) (hd : env.readDoc = .parseError) :
    (run cfg env).1 = .failure parseFailMsg ∧
    ((run cfg env).2.filter Event.isRemote) = [] := by
  simp [run, update_task_definition, get_client, hc, hd, Event.isRemote]

theorem c3_witness :
    envBadJson.clientError = none ∧
    envBadJson.readDoc = .parseError ∧
    ((run cfgW envBadJson).1 = .failure parseFailMsg ∧
      ((run cfgW envBadJson).2.filter Event.isRemote) = []) :=
  ⟨rfl, rfl, c3_invalid_json_fails_without_remote_calls cfgW envBadJson
    rfl rfl⟩

/-- C4: during registration, a `ParamValidationError` produces the
parameter-validation diagnostic, and a registration response lacking the
expected ARN key produces the missing-key diagnostic; in both cases the
run ends in failure and no update-service call appears in the trace. -/
theorem c4_registration_failures_are_terminal (cfg : Config) (env : Env)
    (fields : List (String × Json))
    (hc : env.clientError = none)
    (hd : env.readDoc = .parsed (.obj fields)) :
    (∀ e, env.registerResult = .paramValidationError e →
      (run cfg env).1 = .failure (paramValidationMsg e) ∧
      ((run cfg env).2.filter Event.isUpdateService) = []) ∧
    (∀ resp k, env.registerResult = .success resp →
      lookupArn resp = .error (.keyError k) →
      (run cfg env).1 = .failure (arnKeyErrMsg (keyErrStr k)) ∧
      ((run cfg env).2.filter Event.isUpdateService) = []) := by
  constructor
  · intro e he
    simp [run, update_task_definition, get_client, hc, hd, he,
      Event.isUpdateService]
  · intro resp k hr hk
    simp [run, update_task_definition, get_client, hc, hd, hr, hk,
      Event.isUpdateService]

/-- An environment whose register call rejects the parameters. -/
def envParamErr : Env :=
  { clientError := none, readDoc := .parsed (.obj []),
    registerResult := .paramValidationError "Invalid type for parameter",
    updateResult := .success (.obj []), waitResult := .stable }

theorem c4_witness :
    envParamErr.clientError = none ∧
    envParamErr.readDoc = .parsed (.obj []) ∧
    envParamErr.registerResult =
      .paramValidationError "Invalid type for parameter" ∧
    ((run cfgW envParamErr).1 =
        .failure (paramValidationMsg "Invalid type for parameter") ∧
      ((run cfgW envParamErr).2.filter Event.isUpdateService) = []) :=
  ⟨rfl, rfl, rfl,
    (c4_registration_failures_are_terminal cfgW envParamErr [] rfl rfl).1
      "Invalid type for parameter" rfl⟩

/-- C5: when the update-service call is rejected, the run fails with the
message chosen by `_handle_update_service_error`: the cluster-specific
message for `ClusterNotFoundException`, the service-specific message for
`ServiceNotFoundException`, and the generic message otherwise. -/
theorem c5_update_rejection_diagnostics (cfg : Config) (env : Env)
    (fields : List (String × Json)) (resp arn : Json) (code m : String)
    (hc : env.clientError = none)
    (hd : env.readDoc = .parsed (.obj fields))
    (hr : env.registerResult = .success resp)
    (ha : lookupArn resp = .ok arn)
    (hu : env.updateResult = .clientError code m) :
    (run cfg env).1 = .failure (handleUpdateServiceErrorMsg code m) ∧
    (code = "ClusterNotFoundException" →
      handleUpdateServiceErrorMsg code m =
        "ECS cluster not found. Check your CLUSTER_NAME.") ∧
    (code = "ServiceNotFoundException" →
      handleUpdateServiceErrorMsg code m =
        "ECS service not found. Check your SERVICE_NAME") ∧
    (code ≠ "ClusterNotFoundException" →
      code ≠ "ServiceNotFoundException" →
      handleUpdateServiceErrorMsg code m =
        "Failed to update the stack.\n" ++ m) := by
  refine ⟨?_, ?_, ?_, ?_⟩
  · simp [run, update_task_definition, update_service, get_client, hc, hd,
      hr, ha, hu]
  · intro h; subst h; rfl
  · intro h; subst h; rfl
  · intro h1 h2; simp [handleUpdateServiceErrorMsg, h1, h2]

/-- An environment whose update call is rejected with an unknown
cluster. -/
def envClusterNotFound : Env :=
  { clientError := none, readDoc := .parsed (.obj []),
    registerResult := .success respW,
    updateResult := .clientError "ClusterNotFoundException"
      "An error occurred (ClusterNotFoundException)",
    waitResult := .stable }

theorem c5_witness :
    envClusterNotFound.clientError = none ∧
    envClusterNotFound.readDoc = .parsed (.obj []) ∧
    envClusterNotFound.registerResult = .success respW ∧
    lookupArn respW = .ok (.str "arn:aws:ecs:1") ∧
    envClusterNotFound.updateResult =
      .clientError "ClusterNotFoundException"
        "An error occurred (ClusterNotFoundException)" ∧
    ((run cfgW envClusterNotFound).1 =
        .failure (handleUpdateServiceErrorMsg "ClusterNotFoundException"
          "An error occurred (ClusterNotFoundException)") ∧
      handleUpdateServiceErrorMsg "ClusterNotFoundException"
        "An error occurred (ClusterNotFoundException)" =
        "ECS cluster not found. Check your CLUSTER_NAME.") := by
  have h := c5_update_rejection_diagnostics cfgW envClusterNotFound []
    respW (.str "arn:aws:ecs:1") "ClusterNotFoundException"
    "An error occurred (ClusterNotFoundException)" rfl rfl rfl rfl rfl
  exact ⟨rfl, rfl, rfl, rfl, rfl, h.1, h.2.1 rfl⟩

/-- C6: with `WAIT` false, once the update call succeeds the run emits
the success confirmation with the constructed console URL and the trace
contains no `services_stable` waiter invocation. -/
theorem c6_no_wait_skips_waiter (cfg : Config) (env : Env)
    (fields : List (String × Json)) (resp arn r : Json)
    (hw : cfg.wait = false)
    (hc : env.clientError = none)
    (hd : env.readDoc = .parsed (.obj fields))
    (hr : env.registerResult = .success resp)
    (ha : lookupArn resp = .ok arn)
    (hu : env.updateResult = .success r) :
    (run cfg env).1 =
      .success (successMsg cfg.region cfg.clusterName cfg.serviceName) ∧
    ((run cfg env).2.filter Event.isWait) = [] := by
  simp [run, update_task_definition, update_service, get_client, hc, hd,
    hr, ha, hu, hw, Event.isWait]

theorem c6_witness :
    cfgW.wait = false ∧
    envAllOk.clientError = none ∧
    envAllOk.readDoc = .parsed (.obj [("family", .str "app")]) ∧
    envAllOk.registerResult = .success respW ∧
    lookupArn respW = .ok (.str "arn:aws:ecs:1") ∧
    envAllOk.updateResult = .success (.obj []) ∧
    ((run cfgW envAllOk).1 =
        .success (successMsg cfgW.region cfgW.clusterName
          cfgW.serviceName) ∧
      ((run cfgW envAllOk).2.filter Event.isWait) = []) :=
  ⟨rfl, rfl, rfl, rfl, rfl, rfl,
    c6_no_wait_skips_waiter cfgW envAllOk [("family", .str "app")] respW
      (.str "arn:aws:ecs:1") (.obj []) rfl rfl rfl rfl rfl rfl⟩

/-- C7: with `WAIT` true, a `WaiterError` from the `services_stable`
waiter makes the run fail with the stabilization diagnostic, and the
success confirmation is emitted only when the waiter completes without
error. -/
theorem c7_waiter_error_fails_run (cfg : Config) (env : Env)
    (fields : List (String × Json)) (resp arn r : Json)
    (hw : cfg.wait = true)
    (hc : env.clientError = none)
    (hd : env.readDoc = .parsed (.obj fields))
    (hr : env.registerResult = .success resp)
    (ha : lookupArn resp = .ok arn)
    (hu : env.updateResult = .success r) :
    (∀ e, env.waitResult = .waiterError e →
      (run cfg env).1 = .failure (waiterErrMsg e)) ∧
    (∀ m, (run cfg env).1 = .success m → env.waitResult = .stable) := by
  constructor
  · intro e he
    simp [run, update_task_definition, update_service, get_client, hc, hd,
      hr, ha, hu, hw, he]
  · intro m hm
    cases hwr : env.waitResult with
    | waiterError e =>
        exfalso
        simp [run, update_task_definition, update_service, get_client, hc,
          hd, hr, ha, hu, hw, hwr] at hm
    | stable => rfl

/-- A configuration asking the step to wait for stability. -/
def cfgWaiting : Config := { cfgW with wait := true }

/-- An environment where the waiter reports a timeout. -/
def envWaiterErr : Env :=
  { clientError := none, readDoc := .parsed (.obj []),
    registerResult := .success respW,
    updateResult := .success (.obj []),
    waitResult := .waiterError "Max attempts exceeded" }

theorem c7_witness :
    cfgWaiting.wait = true ∧
    envWaiterErr.clientError = none ∧
    envWaiterErr.readDoc = .parsed (.obj []) ∧
    envWaiterErr.registerResult = .success respW ∧
    lookupArn respW = .ok (.str "arn:aws:ecs:1") ∧
    envWaiterErr.updateResult = .success (.obj []) ∧
    envWaiterErr.waitResult = .waiterError "Max attempts exceeded" ∧
    (run cfgWaiting envWaiterErr).1 =
      .failure (waiterErrMsg "Max attempts exceeded") :=
  ⟨rfl, rfl, rfl, rfl, rfl, rfl, rfl,
    (c7_waiter_error_fails_run cfgWaiting envWaiterErr [] respW
        (.str "arn:aws:ecs:1") (.obj []) rfl rfl rfl rfl rfl rfl).1
      "Max attempts exceeded" rfl⟩

/-- C9: the optional image-name override is accepted by
`update_task_definition` but never used, so two runs that differ only in
`IMAGE_NAME` (absent or any value) have the same outcome and the same
trace — in particular the same document submitted to registration and
the same subsequent remote calls. -/
theorem c9_image_name_has_no_effect (cfg : Config) (env : Env)
    (v : Option String) :
    run { cfg with imageName := v } env = run cfg env := rfl

/-- Every variable read appearing anywhere in the trace, other than the
`WAIT` read, already occurs before the first remote call: each such
variable's first read precedes every remote call. -/
def firstReadsPrecedeRemote (t : List Event) : Bool :=
  t.all fun e =>
    match e with
    | .getVar n =>
        (n == "WAIT") ||
          (t.take (t.findIdx Event.isRemote)).any (Event.isReadOf n)
    | _ => true

/-- Any `WAIT` read in the trace happens strictly after the
update-service call. -/
def waitReadAfterUpdate (t : List Event) : Bool :=
  !(t.any (Event.isReadOf "WAIT")) ||
    (t.any Event.isUpdateService &&
      t.findIdx Event.isUpdateService < t.findIdx (Event.isReadOf "WAIT"))

/-- C8 counterexample: in a fully successful waiting run, the `WAIT`
flag is read (for the first time) only after remote calls have been
made — its first read does not precede the first remote call, refuting
the claim that no configuration value is first read after a remote
call. -/
theorem c8_counterexample_wait_read_after_remote_call :
    ((run cfgWaiting envAllOk).2.any (Event.isReadOf "WAIT")) = true ∧
    ((run cfgWaiting envAllOk).2.any Event.isRemote) = true ∧
    ¬ ((run cfgWaiting envAllOk).2.findIdx (Event.isReadOf "WAIT") <
        (run cfgWaiting envAllOk).2.findIdx Event.isRemote) := by
  decide

/-- C8 amended: in every run, each configuration variable other than the
wait flag is first read before any remote call, and the wait flag is
read only after the update-service call has been issued. -/
theorem c8_amended_read_order (cfg : Config) (env : Env) :
    firstReadsPrecedeRemote (run cfg env).2 = true ∧
    waitReadAfterUpdate (run cfg env).2 = true := by
  obtain ⟨ce, rd, rr, ur, wr⟩ := env
  cases ce with
  | some e => exact ⟨rfl, rfl⟩
  | none =>
    cases rd with
    | fileNotFound => exact ⟨rfl, rfl⟩
    | parseError => exact ⟨rfl, rfl⟩
    | parsed doc =>
      cases doc with
      | null => exact ⟨rfl, rfl⟩
      | bool b => exact ⟨rfl, rfl⟩
      | num n => exact ⟨rfl, rfl⟩
      | str s => exact ⟨rfl, rfl⟩
      | arr l => exact ⟨rfl, rfl⟩
      | obj fields =>
        cases rr with
        | clientError e => exact ⟨rfl, rfl⟩
        | paramValidationError e => exact ⟨rfl, rfl⟩
        | success resp =>
          cases ha : lookupArn resp with
          | error pe =>
            cases pe with
            | keyError k =>
                simp only [run, update_task_definition, update_service,
                  get_client, ha]
                exact ⟨rfl, rfl⟩
            | typeError =>
                simp only [run, update_task_definition, update_service,
                  get_client, ha]
                exact ⟨rfl, rfl⟩
          | ok arn =>
            cases ur with
            | clientError code e =>
                simp only [run, update_task_definition, update_service,
                  get_client, ha]
                exact ⟨rfl, rfl⟩
            | success r =>
              obtain ⟨reg, path, img, cl, sv, fd, w⟩ := cfg
              cases w with
              | false =>
                  simp only [run, update_task_definition, update_service,
                    get_client, ha]
                  exact ⟨rfl, rfl⟩
              | true =>
                cases wr with
                | waiterError e =>
                    simp only [run, update_task_definition,
                      update_service, get_client, ha]
                    exact ⟨rfl, rfl⟩
                | stable =>
                    simp only [run, update_task_definition,
                      update_service, get_client, ha]
                    exact ⟨rfl, rfl⟩

/-- A string starting with the literal `a` differs from `b` whenever `b`
does not start with `a`'s characters. -/
theorem append_ne_of_take_ne (a t b : String)
    (h : b.data.take a.data.length ≠ a.data) : a ++ t ≠ b := by
  intro he
  apply h
  have h2 : a.data ++ t.data = b.data := by
    rw [← he]
    cases a
    cases t
    rfl
  rw [← h2, List.take_left]

theorem notFoundMsg_ne_parseFailMsg (p : String) :
    notFoundMsg p ≠ parseFailMsg := by
  unfold notFoundMsg
  exact append_ne_of_take_ne _ _ _ (by decide)

theorem registerClientErrMsg_ne_parseFailMsg (e : String) :
    registerClientErrMsg e ≠ parseFailMsg := by
  unfold registerClientErrMsg
  exact append_ne_of_take_ne _ _ _ (by decide)

theorem paramValidationMsg_ne_parseFailMsg (e : String) :
    paramValidationMsg e ≠ parseFailMsg := by
  unfold paramValidationMsg
  exact append_ne_of_take_ne _ _ _ (by decide)

theorem arnKeyErrMsg_ne_parseFailMsg (e : String) :
    arnKeyErrMsg e ≠ parseFailMsg := by
  unfold arnKeyErrMsg
  exact append_ne_of_take_ne _ _ _ (by decide)

theorem handleUpdateServiceErrorMsg_ne_parseFailMsg (code m : String) :
    handleUpdateServiceErrorMsg code m ≠ parseFailMsg := by
  unfold handleUpdateServiceErrorMsg
  split
  · decide
  · split
    · decide
    · exact append_ne_of_take_ne _ _ _ (by decide)

theorem waiterErrMsg_ne_parseFailMsg (e : String) :
    waiterErrMsg e ≠ parseFailMsg := by
  unfold waiterErrMsg
  exact append_ne_of_take_ne _ _ _ (by decide)

/-- C10: the parse diagnostic is produced exactly when the document is
not syntactically valid JSON; a document that parses to a non-object
value instead passes the parse step and ends the run in an uncaught
`TypeError` (no handler in `update_task_definition` catches it). -/
theorem c10_parse_diag_iff_invalid_json (cfg : Config) (env : Env)
    (hc : env.clientError = none) :
    ((run cfg env).1 = .failure parseFailMsg ↔
      env.readDoc = .parseError) ∧
    (∀ doc, env.readDoc = .parsed doc → (∀ fields, doc ≠ .obj fields) →
      (run cfg env).1 = .uncaught "TypeError") := by
  obtain ⟨ce, rd, rr, ur, wr⟩ := env
  subst hc
  constructor
  · constructor
    · intro hm
      cases rd with
      | parseError => rfl
      | fileNotFound =>
          simp [run, update_task_definition, get_client] at hm
          exact absurd hm (notFoundMsg_ne_parseFailMsg _)
      | parsed doc =>
        exfalso
        cases doc with
        | null => simp [run, update_task_definition, get_client] at hm
        | bool b => simp [run, update_task_definition, get_client] at hm
        | num n => simp [run, update_task_definition, get_client] at hm
        | str s => simp [run, update_task_definition, get_client] at hm
        | arr l => simp [run, update_task_definition, get_client] at hm
        | obj fields =>
          cases rr with
          | clientError e =>
              simp [run, update_task_definition, get_client] at hm
              exact registerClientErrMsg_ne_parseFailMsg e hm
          | paramValidationError e =>
              simp [run, update_task_definition, get_client] at hm
              exact paramValidationMsg_ne_parseFailMsg e hm
          | success resp =>
            cases ha : lookupArn resp with
            | error pe =>
              cases pe with
              | keyError k =>
                  simp [run, update_task_definition, get_client, ha] at hm
                  exact arnKeyErrMsg_ne_parseFailMsg _ hm
              | typeError =>
                  simp [run, update_task_definition, get_client, ha] at hm
            | ok arn =>
              cases ur with
              | clientError code m =>
                  simp [run, update_task_definition, update_service,
                    get_client, ha] at hm
                  exact handleUpdateServiceErrorMsg_ne_parseFailMsg
                    code m hm
              | success r =>
                obtain ⟨reg, path, img, cl, sv, fd, w⟩ := cfg
                cases w with
                | false =>
                    simp [run, update_task_definition, update_service,
                      get_client, ha] at hm
                | true =>
                  cases wr with
                  | waiterError e =>
                      simp [run, update_task_definition, update_service,
                        get_client, ha] at hm
                      exact waiterErrMsg_ne_parseFailMsg e hm
                  | stable =>
                      simp [run, update_task_definition, update_service,
                        get_client, ha] at hm
    · intro hd
      subst hd
      simp [run, update_task_definition, get_client]
  · intro doc hdp hno
    cases hdp
    cases doc with
    | null => simp [run, update_task_definition, get_client]
    | bool b => simp [run, update_task_definition, get_client]
    | num n => simp [run, update_task_definition, get_client]
    | str s => simp [run, update_task_definition, get_client]
    | arr l => simp [run, update_task_definition, get_client]
    | obj fields => exact absurd rfl (hno fields)

/-- An environment whose document is valid JSON but a top-level array. -/
def envArrDoc : Env :=
  { clientError := none, readDoc := .parsed (.arr []),
    registerResult := .success respW,
    updateResult := .success (.obj []), waitResult := .stable }

theorem c10_witness :
    envArrDoc.clientError = none ∧
    envArrDoc.readDoc = .parsed (.arr []) ∧
    ((run cfgW envArrDoc).1 = .failure parseFailMsg ↔
      envArrDoc.readDoc = .parseError) ∧
    (run cfgW envArrDoc).1 = .uncaught "TypeError" :=
  ⟨rfl, rfl,
    (c10_parse_diag_iff_invalid_json cfgW envArrDoc rfl).1,
    (c10_parse_diag_iff_invalid_json cfgW envArrDoc rfl).2 (.arr []) rfl
      (fun _fields h => Json.noConfusion h)⟩

end ECSDeploy
